import Mathlib

/-!
Verification of the Infoscience → Alma thesis-cataloging pipeline
(`create_records.py`).

Python strings are embedded as `List Char` (`Str`); `None`-able strings as
`Option Str`, where Python truthiness identifies `none` and `some []` as
falsy.  MARC records are ordered lists of tagged fields.  Stateful or
network-dependent code is embedded as pure functions over explicit
outcome types (HTTP results, Alma call results), mirroring the branch
structure of the source.
-/

abbrev Str := List Char

/-- Python truthiness of an optional string: `None` and `""` are falsy. -/
def truthy : Option Str → Bool
  | none => false
  | some v => !v.isEmpty

/-- Python `v or ""`. -/
def orEmpty : Option Str → Str
  | none => []
  | some v => v

/-- ASCII whitespace as recognized by Python `str.strip()`. -/
def isPySpace (c : Char) : Bool :=
  c = ' ' || c = '\t' || c = '\n' || c = '\r' || c = '\u000B' || c = '\u000C'

/-- Python `s.strip()`. -/
def pyStrip (s : Str) : Str :=
  ((s.dropWhile isPySpace).reverse.dropWhile isPySpace).reverse

/-- Python `s.lower()` (ASCII). -/
def pyLower (s : Str) : Str := s.map Char.toLower

/-- Python `s.upper()` (ASCII). -/
def pyUpper (s : Str) : Str := s.map Char.toUpper

/-- Helper for `pySplit`: accumulates the current chunk in reverse. -/
def pySplitAux (sep : Char) : Str → Str → List Str
  | [], acc => [acc.reverse]
  | c :: cs, acc =>
    if c = sep then acc.reverse :: pySplitAux sep cs []
    else pySplitAux sep cs (c :: acc)

/-- Python `s.split(sep)` for a one-character separator (keeps empty chunks). -/
def pySplit (sep : Char) (s : Str) : List Str := pySplitAux sep s []

/-- Python `sep.join(parts)`. -/
def pyJoin (sep : Str) : List Str → Str
  | [] => []
  | [x] => x
  | x :: xs => x ++ sep ++ pyJoin sep xs

/-- Bool test that `pat` occurs at the start of `s`. -/
def startsWithStr : Str → Str → Bool
  | _, [] => true
  | [], _ :: _ => false
  | c :: cs, p :: ps => c = p && startsWithStr cs ps

/-- Python `pat in s` (substring containment). -/
def containsStr (pat : Str) : Str → Bool
  | [] => pat.isEmpty
  | c :: rest => startsWithStr (c :: rest) pat || containsStr pat rest

/-- Python `s.replace("||", "; ")`: left-to-right, non-overlapping. -/
def replaceDoublePipe : Str → Str
  | '|' :: '|' :: rest => ';' :: ' ' :: replaceDoublePipe rest
  | c :: rest => c :: replaceDoublePipe rest
  | [] => []

/-- Order-preserving case-sensitive dedup (the `seen` set / `deduped` list
loop of `build_final_record`). -/
def dedupAux (seen : List Str) : List Str → List Str
  | [] => []
  | k :: ks => if k ∈ seen then dedupAux seen ks else k :: dedupAux (k :: seen) ks

/-- `expand_epfl`: converts the whole-value token "EPFL" to the full
institutional name, anything else passes through. -/
def expand_epfl : Option Str → Option Str
  | none => none
  | some v =>
    if v.isEmpty then some v
    else if pyUpper (pyStrip v) = "EPFL".data then
      some "Ecole Polytechnique Fédérale de Lausanne".data
    else some v

/-- `invert_name_comma`: inverts "Nom, Prénom(s)" to "Prénom(s) Nom". -/
def invert_name_comma : Option Str → Option Str
  | none => none
  | some name =>
    if name.isEmpty then some name
    else
      match (pySplit ',' name).map pyStrip with
      | p0 :: p1 :: rest =>
        some (pyStrip (pyStrip (pyJoin [' '] (p1 :: rest)) ++ [' '] ++ p0))
      | _ => some name

/-- `ensure_pages_suffix`: appends " pages" unless "pages" (case-insensitive)
already appears in the value. -/
def ensure_pages_suffix : Option Str → Option Str
  | none => none
  | some val =>
    if val.isEmpty then some val
    else if containsStr "pages".data (pyLower val) then some val
    else some (pyStrip val ++ " pages".data)

/-! ## MARC data model (pymarc `Record` / `Field` as used by the script) -/

/-- A MARC subfield: one-character code plus value. -/
structure MarcSubfield where
  code : Char
  value : Str
deriving DecidableEq

/-- A MARC field: either a control field (tag + data) or a data field
(tag + two indicators + subfields). -/
inductive MarcField
  | control (tag : String) (data : Str)
  | data (tag : String) (ind1 ind2 : Char) (subfields : List MarcSubfield)
deriving DecidableEq

/-- Tag of a field. -/
def MarcField.tag : MarcField → String
  | .control t _ => t
  | .data t _ _ _ => t

/-- A MARC record: leader plus ordered field list (pymarc `Record`). -/
structure MarcRecord where
  leader : Str
  fields : List MarcField
deriving DecidableEq

/-- pymarc `record.get_fields(tag)`. -/
def get_fields (r : MarcRecord) (tag : String) : List MarcField :=
  r.fields.filter (fun f => f.tag = tag)

/-- pymarc `record.get(tag)` / `record[tag]`: first field with the tag. -/
def recordGetFirst (r : MarcRecord) (tag : String) : Option MarcField :=
  r.fields.find? (fun f => f.tag = tag)

/-- pymarc `field.get(code)`: first value of the subfield `code`. -/
def fieldGet (f : MarcField) (code : Char) : Option Str :=
  match f with
  | .control _ _ => none
  | .data _ _ _ subs => subs.findSome? (fun s => if s.code = code then some s.value else none)

/-- pymarc `code in field`. -/
def fieldHas (f : MarcField) (code : Char) : Bool := (fieldGet f code).isSome

/-- pymarc `field.get_subfields(code)`: every value of the subfield `code`. -/
def get_subfields (f : MarcField) (code : Char) : List Str :=
  match f with
  | .control _ _ => []
  | .data _ _ _ subs => (subs.filter (fun s => s.code = code)).map (·.value)

/-- Second indicator equals `c` (false for control fields). -/
def fieldInd2Is (f : MarcField) (c : Char) : Bool :=
  match f with
  | .control _ _ => false
  | .data _ _ i2 _ => i2 = c

/-- `fget`: first value of subfield `code` in the first field `tag`, or None. -/
def fget (r : MarcRecord) (tag : String) (code : Char) : Option Str :=
  match recordGetFirst r tag with
  | none => none
  | some f => fieldGet f code

/-- `fget_all`: every value of subfield `code` across all fields `tag`. -/
def fget_all (r : MarcRecord) (tag : String) (code : Char) : List Str :=
  ((get_fields r tag).map (fun f => get_subfields f code)).flatten

/-- `src["001"].data if src["001"] is not None else None`. -/
def recordControlData (r : MarcRecord) (tag : String) : Option Str :=
  match recordGetFirst r tag with
  | some (.control _ d) => some d
  | _ => none

/-! ## The field mapper (`build_final_record`) -/

/-- `build_final_record`: builds the final EPFL MARC record from an
Infoscience source record, mirroring the Python block by block. -/
def build_final_record (src : MarcRecord) : MarcRecord :=
  -- 001: Infoscience identifier
  let cf001 := recordControlData src "001"
  let f001 : List MarcField := if truthy cf001 then [.control "001" (orEmpty cf001)] else []
  -- LDR / 008: static control fields
  let f008 : MarcField := .control "008" "||||||s2025    sz   a   m    00| | eng  ".data
  -- 040: cataloging agency (static)
  let f040 : MarcField := .data "040" ' ' ' '
    [⟨'a', "CH-ZuSLS EPFL".data⟩, ⟨'b', "fre".data⟩, ⟨'e', "rda".data⟩]
  -- 100 1_: main author, from the first 700 field holding subfield a
  let author700a : Option Str := (get_fields src "700").findSome? (fun f => fieldGet f 'a')
  let f100subs : List MarcSubfield :=
    (if truthy author700a then [⟨'a', orEmpty author700a⟩] else []) ++ [⟨'4', "aut".data⟩]
  let f100 : MarcField := .data "100" '1' ' ' f100subs
  -- 245 10: title statement
  let t_a := fget src "245" 'a'
  let t_b := fget src "245" 'b'
  let t_c := invert_name_comma author700a
  let subf245 : List MarcSubfield :=
    (if truthy t_a then [⟨'a', orEmpty t_a⟩] else [])
      ++ (if truthy t_b then [⟨'b', orEmpty t_b⟩] else [])
      ++ (if truthy t_c then [⟨'c', orEmpty t_c⟩] else [])
  let f245 : List MarcField := if subf245.isEmpty then [] else [.data "245" '1' '0' subf245]
  -- 264 _1: publication statement
  let place_260a := fget src "260" 'a'
  let publ_260b := expand_epfl (fget src "260" 'b')
  let date_260c := fget src "260" 'c'
  let subf264 : List MarcSubfield :=
    (if truthy place_260a then [⟨'a', orEmpty place_260a⟩] else [])
      ++ (if truthy publ_260b then [⟨'b', orEmpty publ_260b⟩] else [])
      ++ (if truthy date_260c then [⟨'c', orEmpty date_260c⟩] else [])
  let f264 : List MarcField := if subf264.isEmpty then [] else [.data "264" ' ' '1' subf264]
  -- 300 __: physical description (always added, $b/$c static)
  let pages_300a := ensure_pages_suffix (fget src "300" 'a')
  let subf300 : List MarcSubfield :=
    (if truthy pages_300a then [⟨'a', orEmpty pages_300a⟩] else [])
      ++ [⟨'b', "illustrations".data⟩, ⟨'c', "28 cm".data⟩]
  let f300 : MarcField := .data "300" ' ' ' ' subf300
  -- 336 / 337 / 338: RDA statics
  let f336 : MarcField := .data "336" ' ' ' ' [⟨'b', "txt".data⟩, ⟨'2', "rdacontent".data⟩]
  let f337 : MarcField := .data "337" ' ' ' ' [⟨'b', "n".data⟩, ⟨'2', "rdamedia".data⟩]
  let f338 : MarcField := .data "338" ' ' ' ' [⟨'b', "nc".data⟩, ⟨'2', "rdacarrier".data⟩]
  -- 502 __: thesis note (single, omitted when empty)
  let b_336a := fget src "336" 'a'
  let s502b : List MarcSubfield :=
    if truthy b_336a then
      [⟨'b', if pyLower (pyStrip (orEmpty b_336a)) = "theses".data then "Thèse".data
             else orEmpty b_336a⟩]
    else []
  let a260a := fget src "260" 'a'
  let a260b := fget src "260" 'b'
  let s502c : List MarcSubfield :=
    if truthy a260a || truthy a260b then
      [⟨'c', pyStrip (orEmpty a260b ++ [' '] ++ orEmpty a260a)⟩]
    else []
  let d_920b := fget src "920" 'b'
  let s502d : List MarcSubfield := if truthy d_920b then [⟨'d', orEmpty d_920b⟩] else []
  let a088a := fget src "088" 'a'
  let s502o : List MarcSubfield :=
    if truthy a088a then [⟨'o', "n° ".data ++ orEmpty a088a⟩] else []
  let subf502 := s502b ++ s502c ++ s502d ++ s502o
  let f502 : List MarcField := if subf502.isEmpty then [] else [.data "502" ' ' ' ' subf502]
  -- 520 __: abstract (always added; $a only when keywords survive)
  let keywords : List Str :=
    ((fget_all src "653" 'a').filter (fun k => !k.isEmpty && !(pyStrip k).isEmpty)).map pyStrip
  let deduped := dedupAux [] keywords
  let subf520 : List MarcSubfield :=
    (if !deduped.isEmpty then
      [⟨'a', "Mots-clés de l'auteur : ".data
              ++ replaceDoublePipe (pyJoin "; ".data deduped)⟩]
     else [])
      ++ [⟨'5', "CH-ZuSLS EPFL".data⟩]
  let f520 : MarcField := .data "520" ' ' ' ' subf520
  -- 655 _7: genre/form statics
  let f655a : MarcField := .data "655" ' ' '7'
    [⟨'a', "Thèses et écrits académiques".data⟩, ⟨'0', "(IDREF)027253139".data⟩,
     ⟨'2', "idref".data⟩]
  let f655b : MarcField := .data "655" ' ' '7'
    [⟨'a', "Hochschulschrift".data⟩, ⟨'2', "gnd-content".data⟩]
  let f655c : MarcField := .data "655" ' ' '7'
    [⟨'a', "Tesi".data⟩, ⟨'2', "sbt12-content".data⟩]
  -- 700 1_: thesis director from 720$a, second indicator '2' preferred
  let cand720 : Option MarcField :=
    match (get_fields src "720").find? (fun f => fieldInd2Is f '2' && fieldHas f 'a') with
    | some f => some f
    | none => (get_fields src "720").find? (fun f => fieldHas f 'a')
  let f700 : MarcField :=
    match cand720 with
    | some f => .data "700" '1' ' ' [⟨'a', (fieldGet f 'a').getD []⟩, ⟨'4', "dgs".data⟩]
    | none => .data "700" '1' ' ' [⟨'4', "dgs".data⟩]
  { leader := "00000nam a2200000 c 4500".data
    fields := f001 ++ [f008, f040, f100] ++ f245 ++ f264
      ++ [f300, f336, f337, f338] ++ f502 ++ [f520, f655a, f655b, f655c, f700] }

/-! ## Call-number allocation loop (`main`, steps 5 and 7)

The per-record body of `main` touches `record_index` and
`call_number_value` only at the top of the loop: `record_index += 1`,
then the `max_records` break check, then `call_number_value += 1`.
Every later path (`continue` on an exception, SRU skip, XSD error,
dry run, creation) leaves both variables unchanged and never breaks,
so records are abstracted to `Unit` here.  The pair returned is
(`record_index`, `call_number_value`) at loop exit; the second
component is what step 7 writes to `last_call_number.txt`. -/

def counterLoop (maxRecords : Nat) : List Unit → Nat → Nat → Nat × Nat
  | [], recordIndex, callNumberValue => (recordIndex, callNumberValue)
  | _ :: rest, recordIndex, callNumberValue =>
    let recordIndex := recordIndex + 1
    if maxRecords > 0 && recordIndex > maxRecords then (recordIndex, callNumberValue)
    else counterLoop maxRecords rest recordIndex (callNumberValue + 1)

/-! ## Dedup gate (`fetch_marc_record_from_sru` and its caller in `main`) -/

/-- Body of the SRU response, as consulted by `fetch_marc_record_from_sru`:
whether `etree.fromstring` succeeds, and which elements are found. -/
structure SruContent where
  parses : Bool
  hasRecordData : Bool
  hasMarcRecord : Bool
deriving DecidableEq

/-- Outcome of `requests.get` in the SRU gate: either the call raises
(connection error, timeout, ...) or it returns a status code and body. -/
inductive HttpResult
  | raised
  | response (status : Nat) (content : SruContent)
deriving DecidableEq

/-- `fetch_marc_record_from_sru`: `Except.error` marks an exception
escaping the function (transport raise or `etree.fromstring` raise);
`Except.ok b` is the boolean "already exists" answer. -/
def fetch_marc_record_from_sru : HttpResult → Except Unit Bool
  | .raised => .error ()
  | .response status content =>
    if status ≠ 200 then .ok false
    else if !content.parses then .error ()
    else if !content.hasRecordData then .ok false
    else if !content.hasMarcRecord then .ok false
    else .ok true

/-- What `main` decides for one record after the dedup stage. -/
inductive DedupDecision
  | abandoned
  | proceedCreate
  | skipExists
deriving DecidableEq

/-- Dedup stage of `main`: skip flag bypasses the gate; a raised
exception inside the gate is caught and the record is abandoned
(`continue`, no report row); otherwise the boolean answer selects
skip vs. proceed-to-creation. -/
def sruDedupStep (skip_sru_check : Bool) (http : HttpResult) : DedupDecision :=
  if skip_sru_check then .proceedCreate
  else
    match fetch_marc_record_from_sru http with
    | .error _ => .abandoned
    | .ok true => .skipExists
    | .ok false => .proceedCreate

/-! ## Record ingestion stream (`iter_infoscience_records`) -/

/-- Outcome of fetching and parsing one Infoscience page. -/
inductive PageOutcome
  | ok (records : List Nat)
  | transportFail
  | parseFail
deriving DecidableEq

/-- Page-driven mode of `iter_infoscience_records`: successive page
outcomes are consumed until a failure (caught, logged, `break`) or an
empty page; records yielded so far are kept. -/
def iterDynamicPages : List PageOutcome → List Nat
  | [] => []
  | .transportFail :: _ => []
  | .parseFail :: _ => []
  | .ok [] :: _ => []
  | .ok rs :: rest => rs ++ iterDynamicPages rest

/-- `iter_infoscience_records`: in static mode a single fixed-URL fetch
is performed with no try/except, so a transport failure
(`raise_for_status`) or parse failure raises out of the generator
(`Except.error`); in page-driven mode the loop catches both and the
stream simply ends. -/
def iter_infoscience_records (use_static_url : Bool) (staticPage : PageOutcome)
    (pages : List PageOutcome) : Except Unit (List Nat) :=
  if use_static_url then
    match staticPage with
    | .ok rs => .ok rs
    | .transportFail => .error ()
    | .parseFail => .error ()
  else .ok (iterDynamicPages pages)

/-! ## Alma holdings (`find_existing_holding`, `creer_holding`) -/

/-- An almapiwrapper `Holding` as consulted by the script.  `error` is
the wrapper's error flag: a holding whose data could not be read; its
`library`/`location` may be `none` when absent from the data. -/
structure AlmaHolding where
  holdingId : Str
  error : Bool
  library : Option Str
  location : Option Str
deriving DecidableEq

/-- Match test performed inside the loop of `find_existing_holding`:
skip wrapper errors, skip missing/empty library or location, then
require exact equality with the requested pair. -/
def holdingMatches (library_code location : Str) (h : AlmaHolding) : Bool :=
  if h.error then false
  else
    match h.library, h.location with
    | some lib, some loc =>
      if lib.isEmpty || loc.isEmpty then false
      else lib = library_code && loc = location
    | _, _ => false

/-- `find_existing_holding`: `holdingsResult = none` models
`bib_obj.get_holdings()` raising (caught, returns None); otherwise the
first holding matching (library_code, location) is returned. -/
def find_existing_holding (holdingsResult : Option (List AlmaHolding))
    (library_code location : Str) : Option AlmaHolding :=
  match holdingsResult with
  | none => none
  | some holdings => holdings.find? (holdingMatches library_code location)

/-- Outcome of `create_holding_in_alma`: the mms-id lookup can fail
before any creation request, the creation request can come back with
the wrapper error flag set, or a holding is created. -/
inductive AlmaCreateResult
  | noMmsId
  | createError
  | created (h : AlmaHolding)
deriving DecidableEq

/-- Remote-side outcomes consumed by `creer_holding` after the
existing-holding lookup misses. -/
structure HoldingCreationEnv where
  validationOk : Bool
  creationResult : AlmaCreateResult
deriving DecidableEq

/-- `creer_holding`: returns the holding (existing or created) or
`none`, paired with the number of Alma holding-creation calls issued. -/
def creer_holding (holdingsResult : Option (List AlmaHolding))
    (library_code location : Str) (env : HoldingCreationEnv) :
    Option AlmaHolding × Nat :=
  match find_existing_holding holdingsResult library_code location with
  | some existing => (some existing, 0)
  | none =>
    if !env.validationOk then (none, 0)
    else
      match env.creationResult with
      | .noMmsId => (none, 0)
      | .createError => (none, 1)
      | .created h => (some h, 1)

/-! ## Alma items (`creer_item_pour_une_holding`) and per-location
reporting (`main`, step 4) -/

/-- Remote-side outcomes consumed by `creer_item_pour_une_holding`:
XSD validation verdict and the Alma item-creation answer
(`none` = wrapper error flag set, `some id` = created). -/
structure ItemCreationEnv where
  validationOk : Bool
  almaItemResult : Option Str
deriving DecidableEq

/-- Observable trace of one `creer_item_pour_une_holding` call. -/
structure ItemStepTrace where
  itemId : Option Str
  itemBuilt : Bool
  createCalls : Nat
  errorLogged : Bool
deriving DecidableEq

/-- `creer_item_pour_une_holding`: the location selects the
status/policy pair; any location other than E02SP / E02XA is logged at
info level and nothing is built or created. -/
def creer_item_pour_une_holding (holding : AlmaHolding) (env : ItemCreationEnv) :
    ItemStepTrace :=
  match holding.location with
  | some loc =>
    if loc = "E02SP".data || loc = "E02XA".data then
      if !env.validationOk then ⟨none, true, 0, true⟩
      else
        match env.almaItemResult with
        | none => ⟨none, true, 1, true⟩
        | some id => ⟨some id, true, 1, false⟩
    else ⟨none, false, 0, false⟩
  | none => ⟨none, false, 0, false⟩

/-- One per-location entry appended by `NoticeReport.add_location`. -/
structure LocationRow where
  location : Str
  holding_id : Option Str
  holding_status : Option Str
  holding_error : Option Str
  item_id : Option Str
  item_status : Option Str
  item_error : Option Str
deriving DecidableEq

/-- Per-location recording in `main` once a holding was obtained:
`if item_id:` treats `None` and the empty string as failure and writes
an ERROR item status; a truthy id writes CREATED.  A missing holding
yields ERROR/SKIPPED. -/
def recordLocationOutcome (loc : Str) (holding : Option AlmaHolding)
    (itemEnv : ItemCreationEnv) : LocationRow :=
  match holding with
  | some h =>
    let trace := creer_item_pour_une_holding h itemEnv
    match trace.itemId with
    | some id =>
      if id.isEmpty then
        { location := loc, holding_id := some h.holdingId,
          holding_status := some "CREATED".data, holding_error := none,
          item_id := none, item_status := some "ERROR".data,
          item_error := some "Item creation failed (see logs)".data }
      else
        { location := loc, holding_id := some h.holdingId,
          holding_status := some "CREATED".data, holding_error := none,
          item_id := some id, item_status := some "CREATED".data, item_error := none }
    | none =>
      { location := loc, holding_id := some h.holdingId,
        holding_status := some "CREATED".data, holding_error := none,
        item_id := none, item_status := some "ERROR".data,
        item_error := some "Item creation failed (see logs)".data }
  | none =>
    { location := loc, holding_id := none,
      holding_status := some "ERROR".data,
      holding_error := some "Holding creation failed (see logs)".data,
      item_id := none, item_status := some "SKIPPED".data, item_error := none }

/-! ## Toggle resolution (`main`, config + CLI merge) -/

/-- `check_xsd = check_xsd and general_cfg["check_xsd"]`. -/
def resolve_check_xsd (cli_check_xsd cfg_check_xsd : Bool) : Bool :=
  cli_check_xsd && cfg_check_xsd

/-- `skip_sru_check = skip_sru_check or general_cfg["skip_sru_check"]`. -/
def resolve_skip_sru_check (cli_skip cfg_skip : Bool) : Bool :=
  cli_skip || cfg_skip

/-! ## Concrete fixtures and claim-side definitions -/

/-- Source-record tags consulted by `build_final_record`. -/
def consultedTags : List String :=
  ["001", "700", "245", "260", "300", "336", "920", "088", "653", "720"]

/-- The exact output of `build_final_record` on a source record having
none of the consulted fields. -/
def staticMappedRecord : MarcRecord :=
  { leader := "00000nam a2200000 c 4500".data
    fields :=
      [.control "008" "||||||s2025    sz   a   m    00| | eng  ".data,
       .data "040" ' ' ' '
         [⟨'a', "CH-ZuSLS EPFL".data⟩, ⟨'b', "fre".data⟩, ⟨'e', "rda".data⟩],
       .data "100" '1' ' ' [⟨'4', "aut".data⟩],
       .data "300" ' ' ' ' [⟨'b', "illustrations".data⟩, ⟨'c', "28 cm".data⟩],
       .data "336" ' ' ' ' [⟨'b', "txt".data⟩, ⟨'2', "rdacontent".data⟩],
       .data "337" ' ' ' ' [⟨'b', "n".data⟩, ⟨'2', "rdamedia".data⟩],
       .data "338" ' ' ' ' [⟨'b', "nc".data⟩, ⟨'2', "rdacarrier".data⟩],
       .data "520" ' ' ' ' [⟨'5', "CH-ZuSLS EPFL".data⟩],
       .data "655" ' ' '7'
         [⟨'a', "Thèses et écrits académiques".data⟩, ⟨'0', "(IDREF)027253139".data⟩,
          ⟨'2', "idref".data⟩],
       .data "655" ' ' '7' [⟨'a', "Hochschulschrift".data⟩, ⟨'2', "gnd-content".data⟩],
       .data "655" ' ' '7' [⟨'a', "Tesi".data⟩, ⟨'2', "sbt12-content".data⟩],
       .data "700" '1' ' ' [⟨'4', "dgs".data⟩]] }

/-- Modelled from the claim's enumeration of static fields: fixed
control field, cataloging agency, physical-description constants,
three RDA fields, three genre fields, and the field carrying the
institutional-code subfield (the leader is a separate record member).
The claim asserts the mapped record contains exactly these plus the
optional fields whose source data was present. -/
def claimStaticFields : List MarcField :=
  [.control "008" "||||||s2025    sz   a   m    00| | eng  ".data,
   .data "040" ' ' ' '
     [⟨'a', "CH-ZuSLS EPFL".data⟩, ⟨'b', "fre".data⟩, ⟨'e', "rda".data⟩],
   .data "300" ' ' ' ' [⟨'b', "illustrations".data⟩, ⟨'c', "28 cm".data⟩],
   .data "336" ' ' ' ' [⟨'b', "txt".data⟩, ⟨'2', "rdacontent".data⟩],
   .data "337" ' ' ' ' [⟨'b', "n".data⟩, ⟨'2', "rdamedia".data⟩],
   .data "338" ' ' ' ' [⟨'b', "nc".data⟩, ⟨'2', "rdacarrier".data⟩],
   .data "520" ' ' ' ' [⟨'5', "CH-ZuSLS EPFL".data⟩],
   .data "655" ' ' '7'
     [⟨'a', "Thèses et écrits académiques".data⟩, ⟨'0', "(IDREF)027253139".data⟩,
      ⟨'2', "idref".data⟩],
   .data "655" ' ' '7' [⟨'a', "Hochschulschrift".data⟩, ⟨'2', "gnd-content".data⟩],
   .data "655" ' ' '7' [⟨'a', "Tesi".data⟩, ⟨'2', "sbt12-content".data⟩]]

/-- Modelled from the spec's words for the abstract note: collect all
values of the repeatable keyword subfield across all occurrences of
its field, trim whitespace, drop empties, deduplicate preserving
first-seen order, join with "; ", replace any literal "||" with "; ",
prefix with the fixed label iff a keyword survives, and always carry
the institutional-code subfield. -/
def specAbstractSubfields (src : MarcRecord) : List MarcSubfield :=
  let collected := fget_all src "653" 'a'
  let trimmed := collected.map pyStrip
  let kept := trimmed.filter (fun k => !k.isEmpty)
  let deduped := dedupAux [] kept
  let joined := replaceDoublePipe (pyJoin "; ".data deduped)
  (if !deduped.isEmpty then
    [⟨'a', "Mots-clés de l'auteur : ".data ++ joined⟩]
   else [])
    ++ [⟨'5', "CH-ZuSLS EPFL".data⟩]

/-- A concrete holding for the C4 witness. -/
def witnessHolding : AlmaHolding :=
  ⟨"22334455".data, false, some "hph_bjnbecip".data, some "E02XA".data⟩

/-- A concrete holding at an unrecognized location for C9. -/
def unknownLocHolding : AlmaHolding :=
  ⟨"55667788".data, false, some "hph_bjnbecip".data, some "FOO".data⟩

/-! ## Sanity checks on the string helpers -/

example : invert_name_comma (some "Doe, Jane".data) = some "Jane Doe".data := by decide
example : invert_name_comma (some "Doe, Jane, Q.".data) = some "Jane Q. Doe".data := by decide
example : ensure_pages_suffix (some "120".data) = some "120 pages".data := by decide
example : ensure_pages_suffix (some "120 pages".data) = some "120 pages".data := by decide
example : expand_epfl (some " epfl ".data)
    = some "Ecole Polytechnique Fédérale de Lausanne".data := by decide

/-! ## Supporting lemmas -/

lemma pySplitAux_no_sep (sep : Char) (l : Str) (acc : Str) (h : ∀ c ∈ l, c ≠ sep) :
    pySplitAux sep l acc = [acc.reverse ++ l] := by
  induction l generalizing acc with
  | nil => simp [pySplitAux]
  | cons c cs ih =>
    have hc : ¬(c = sep) := h c (List.mem_cons_self ..)
    simp [pySplitAux, hc, ih (c :: acc) (fun x hx => h x (List.mem_cons_of_mem _ hx))]

lemma pySplit_no_sep (sep : Char) (l : Str) (h : ∀ c ∈ l, c ≠ sep) :
    pySplit sep l = [l] := by
  simpa [pySplit] using pySplitAux_no_sep sep l [] h

lemma containsStr_append_right (pat a b : Str) (h : containsStr pat b = true) :
    containsStr pat (a ++ b) = true := by
  induction a with
  | nil => simpa
  | cons x xs ih =>
    have : containsStr pat (x :: (xs ++ b))
        = (startsWithStr (x :: (xs ++ b)) pat || containsStr pat (xs ++ b)) := rfl
    simp [List.cons_append, this, ih]

lemma counterLoop_snd (maxR : Nat) (stream : List Unit) (idx v : Nat) :
    (counterLoop maxR stream idx v).2
      = v + (if maxR = 0 then stream.length else min stream.length (maxR - idx)) := by
  induction stream generalizing idx v with
  | nil => simp [counterLoop]
  | cons u us ih =>
    simp only [counterLoop]
    split
    · next hcond =>
      have hc : maxR > 0 ∧ idx + 1 > maxR := by
        simpa [Bool.and_eq_true, decide_eq_true_eq] using hcond
      have h0 : ¬(maxR = 0) := by omega
      simp only [h0, if_false, List.length_cons]
      omega
    · next hcond =>
      have hc : ¬(maxR > 0 ∧ idx + 1 > maxR) := by
        simpa [Bool.and_eq_true, decide_eq_true_eq] using hcond
      rw [ih]
      by_cases h0 : maxR = 0
      · simp [h0]; omega
      · simp only [h0, if_false, List.length_cons]
        omega

lemma counterLoop_fst_zero (stream : List Unit) (idx v : Nat) :
    (counterLoop 0 stream idx v).1 = idx + stream.length := by
  induction stream generalizing idx v with
  | nil => simp [counterLoop]
  | cons u us ih =>
    simp only [counterLoop]
    rw [if_neg (by simp)]
    rw [ih]
    simp
    omega

/-! ## Claim C1 — call-number allocation -/

/-- C1 counterexample: with `max_records = 1` and two records in the
stream, the loop pulls both records (the second pull triggers the cap)
but the persisted counter is seed + 1, not seed + 2 as the claim (seed
plus the count of records pulled, including under a max-record cap)
requires. -/
theorem claim_C1_counterexample :
    counterLoop 1 [(), ()] 0 100 = (2, 101) ∧ (101 : Nat) ≠ 100 + 2 := by
  decide

/-- C1 (amended): the persisted call-number value equals the seed plus
the number of records pulled from the ingestion stream whenever no
max-record cap is set; with a cap m, the record whose pull triggers the
cap does not advance the counter, so the persisted value is
seed + min(stream length, m).  In particular, in the uncapped case the
counter advances by exactly one per pulled record regardless of each
record's downstream outcome. -/
theorem claim_C1_call_number_final_value (seed maxRecords : Nat) (stream : List Unit) :
    (counterLoop maxRecords stream 0 seed).2
        = seed + (if maxRecords = 0 then stream.length else min stream.length maxRecords) ∧
    (counterLoop 0 stream 0 seed).2 = seed + (counterLoop 0 stream 0 seed).1 := by
  constructor
  · simpa using counterLoop_snd maxRecords stream 0 seed
  · rw [counterLoop_fst_zero stream 0 seed]
    simpa using counterLoop_snd 0 stream 0 seed

/-! ## Claim C2 — dedup gate failure policy -/

/-- C2 counterexample: when `requests.get` raises inside the SRU gate,
the orchestrator catches the exception and abandons the record
(`continue`) instead of treating the failure as "not found" and
proceeding toward creation. -/
theorem claim_C2_counterexample :
    sruDedupStep false HttpResult.raised = DedupDecision.abandoned ∧
    DedupDecision.abandoned ≠ DedupDecision.proceedCreate := by
  decide

/-- C2 (amended): a non-200 HTTP status, or a parsed response lacking
the record-data or MARC-record element, is treated as "not found" and
the record proceeds toward creation (fail-open); but a transport
exception or an XML parse exception escapes the gate and the
orchestrator abandons the record without attempting creation.  With
the skip flag the gate is bypassed entirely. -/
theorem claim_C2_dedup_failure_handling :
    (∀ http, sruDedupStep true http = DedupDecision.proceedCreate) ∧
    sruDedupStep false HttpResult.raised = DedupDecision.abandoned ∧
    (∀ (s : Nat) (c : SruContent),
      sruDedupStep false (HttpResult.response s c)
        = if s = 200 then
            (if c.parses then
              (if c.hasRecordData && c.hasMarcRecord then DedupDecision.skipExists
               else DedupDecision.proceedCreate)
             else DedupDecision.abandoned)
          else DedupDecision.proceedCreate) := by
  refine ⟨fun http => rfl, rfl, fun s c => ?_⟩
  rcases c with ⟨p, rd, mr⟩
  by_cases hs : s = 200 <;>
    cases p <;> cases rd <;> cases mr <;>
      simp [sruDedupStep, fetch_marc_record_from_sru, hs]

/-! ## Claim C5 — ingestion stream failure policy -/

/-- C5 counterexample: in static fixed-query mode there is no
try/except around the fetch and parse, so a transport failure raises
past the stream boundary to the consumer, contrary to the claim that
both modes terminate the sequence without propagating an exception. -/
theorem claim_C5_counterexample :
    iter_infoscience_records true PageOutcome.transportFail [] = Except.error () ∧
    (∀ rs : List Nat,
      (Except.error () : Except Unit (List Nat)) ≠ Except.ok rs) :=
  ⟨rfl, fun _ h => by cases h⟩

/-- C5 (amended): in page-driven mode a transport or parse failure on
any page is caught and ends the stream early — no exception reaches the
consumer and records already yielded remain valid; in static
fixed-query mode the same failures propagate past the stream
boundary. -/
theorem claim_C5_stream_failure_policy :
    (∀ sp pages, iter_infoscience_records false sp pages = Except.ok (iterDynamicPages pages)) ∧
    (∀ rest, iterDynamicPages (PageOutcome.transportFail :: rest) = []) ∧
    (∀ rest, iterDynamicPages (PageOutcome.parseFail :: rest) = []) ∧
    (∀ rs rest, iterDynamicPages (PageOutcome.ok rs :: PageOutcome.transportFail :: rest) = rs) ∧
    (∀ rs rest, iterDynamicPages (PageOutcome.ok rs :: PageOutcome.parseFail :: rest) = rs) ∧
    iter_infoscience_records true PageOutcome.transportFail [] = Except.error () ∧
    iter_infoscience_records true PageOutcome.parseFail [] = Except.error () := by
  refine ⟨fun sp pages => rfl, fun rest => rfl, fun rest => rfl, ?_, ?_, rfl, rfl⟩ <;>
    · intro rs rest
      cases rs <;> simp [iterDynamicPages]

/-! ## Claim C6 — name inversion -/

/-- C6: "Doe, Jane" inverts to "Jane Doe"; a name containing no comma
is returned unchanged; "Doe, Jane, Q." inverts to "Jane Q. Doe". -/
theorem claim_C6_invert_name :
    invert_name_comma (some "Doe, Jane".data) = some "Jane Doe".data ∧
    invert_name_comma (some "Doe, Jane, Q.".data) = some "Jane Q. Doe".data ∧
    (∀ nm : Str, ',' ∉ nm → invert_name_comma (some nm) = some nm) := by
  refine ⟨by decide, by decide, fun nm hnm => ?_⟩
  unfold invert_name_comma
  by_cases he : nm.isEmpty
  · simp [he]
  · have hs : pySplit ',' nm = [nm] :=
      pySplit_no_sep ',' nm (fun c hc heq => hnm (heq ▸ hc))
    simp [he, hs]

/-- C6 witness: the no-comma clause at a concrete name. -/
theorem claim_C6_witness :
    invert_name_comma (some "Jane".data) = some "Jane".data :=
  claim_C6_invert_name.2.2 "Jane".data (by decide)

/-! ## Claim C7 — page-suffix rule -/

/-- C7: a value already containing "pages" (case-insensitive) is
returned unchanged; otherwise " pages" is appended to the stripped
value; and the rule is idempotent. -/
theorem claim_C7_pages_suffix :
    (∀ v : Str, v ≠ [] → containsStr "pages".data (pyLower v) = true →
      ensure_pages_suffix (some v) = some v) ∧
    (∀ v : Str, v ≠ [] → containsStr "pages".data (pyLower v) = false →
      ensure_pages_suffix (some v) = some (pyStrip v ++ " pages".data)) ∧
    (∀ o : Option Str, ensure_pages_suffix (ensure_pages_suffix o) = ensure_pages_suffix o) := by
  refine ⟨fun v hv hc => ?_, fun v hv hc => ?_, fun o => ?_⟩
  · simp [ensure_pages_suffix, hv, hc]
  · simp [ensure_pages_suffix, hv, hc]
  · match o with
    | none => rfl
    | some val =>
      by_cases he : val.isEmpty
      · have hnil : val = [] := by simpa using he
        subst hnil
        rfl
      · by_cases hc : containsStr "pages".data (pyLower val) = true
        · simp [ensure_pages_suffix, he, hc]
        · have h1 : ensure_pages_suffix (some val) = some (pyStrip val ++ " pages".data) := by
            simp [ensure_pages_suffix, he, hc]
          rw [h1]
          have hne : ¬((pyStrip val ++ " pages".data).isEmpty = true) := by
            simp
          have hlow : pyLower (pyStrip val ++ " pages".data)
              = pyLower (pyStrip val) ++ " pages".data := by
            have h2 : pyLower " pages".data = " pages".data := by decide
            simp only [pyLower, List.map_append] at h2 ⊢
            rw [h2]
          have hct : containsStr "pages".data (pyLower (pyStrip val ++ " pages".data)) = true := by
            rw [hlow]
            exact containsStr_append_right _ _ _ (by decide)
          simp [ensure_pages_suffix, hne, hct]

/-- C7 witness: both clauses at concrete page-count values. -/
theorem claim_C7_witness :
    ensure_pages_suffix (some "120 pages".data) = some "120 pages".data ∧
    ensure_pages_suffix (some "120".data) = some (pyStrip "120".data ++ " pages".data) :=
  ⟨claim_C7_pages_suffix.1 "120 pages".data (by decide) (by decide),
   claim_C7_pages_suffix.2.1 "120".data (by decide) (by decide)⟩

/-! ## Claim C10 — toggle resolution -/

/-- C10: the effective schema-check setting is the conjunction of the
CLI flag and the config value (either side alone disables, neither
alone re-enables), and the effective dedup-skip setting is their
disjunction (either side alone suffices to skip). -/
theorem claim_C10_toggle_resolution :
    (∀ cli cfg, resolve_check_xsd cli cfg = (cli && cfg)) ∧
    (∀ cfg, resolve_check_xsd false cfg = false) ∧
    (∀ cli, resolve_check_xsd cli false = false) ∧
    (∀ cli cfg, resolve_skip_sru_check cli cfg = (cli || cfg)) ∧
    (∀ cfg, resolve_skip_sru_check true cfg = true) ∧
    (∀ cli, resolve_skip_sru_check cli true = true) := by
  decide

/-! ## Claim C4 — existing-holding short-circuit -/

lemma holdingMatches_spec {library_code location : Str} {h : AlmaHolding}
    (hp : holdingMatches library_code location h = true) :
    h.error = false ∧ h.library = some library_code ∧ h.location = some location := by
  obtain ⟨hid, herr, hlib, hloc⟩ := h
  unfold holdingMatches at hp
  cases herr with
  | true => simp at hp
  | false =>
    simp only [if_false, Bool.false_eq_true] at hp
    cases hlib with
    | none => simp at hp
    | some lib =>
      cases hloc with
      | none => simp at hp
      | some loc =>
        simp only [] at hp
        by_cases hemp : (lib.isEmpty || loc.isEmpty) = true
        · rw [if_pos hemp] at hp; simp at hp
        · rw [if_neg hemp] at hp
          simp only [Bool.and_eq_true, decide_eq_true_eq] at hp
          exact ⟨rfl, by rw [hp.1], by rw [hp.2]⟩

/-- C4: if the bib's current holdings (as retrieved) contain a
well-formed holding exactly at the requested (library_code, location),
`creer_holding` returns an existing holding at that pair and issues
zero holding-creation calls; and the creation path on a lookup miss
also returns a holding (both outcomes are success). -/
theorem claim_C4_existing_holding_short_circuit
    (hs : List AlmaHolding) (library_code location : Str) (env : HoldingCreationEnv)
    (hex : ∃ h ∈ hs, holdingMatches library_code location h = true) :
    (∃ h0 ∈ hs, creer_holding (some hs) library_code location env = (some h0, 0) ∧
        h0.error = false ∧ h0.library = some library_code ∧
        h0.location = some location) ∧
    (∀ h' : AlmaHolding,
      creer_holding (some []) library_code location
        ⟨true, AlmaCreateResult.created h'⟩ = (some h', 1)) := by
  refine ⟨?_, fun h' => rfl⟩
  have hsome : (hs.find? (holdingMatches library_code location)).isSome := by
    rw [List.find?_isSome]
    obtain ⟨h, hmem, hp⟩ := hex
    exact ⟨h, hmem, hp⟩
  obtain ⟨h0, hfind⟩ := Option.isSome_iff_exists.mp hsome
  have hp := List.find?_some hfind
  have hmem := List.mem_of_find?_eq_some hfind
  obtain ⟨he, hl, hc⟩ := holdingMatches_spec hp
  exact ⟨h0, hmem, by simp [creer_holding, find_existing_holding, hfind], he, hl, hc⟩

/-- C4 witness: the short-circuit at a concrete bib with one matching
holding — no creation call, and a holding is returned. -/
theorem claim_C4_witness :
    (creer_holding (some [witnessHolding]) "hph_bjnbecip".data "E02XA".data
        ⟨true, AlmaCreateResult.createError⟩).2 = 0 ∧
    (creer_holding (some [witnessHolding]) "hph_bjnbecip".data "E02XA".data
        ⟨true, AlmaCreateResult.createError⟩).1.isSome = true := by
  obtain ⟨h0, _, heq, _⟩ :=
    (claim_C4_existing_holding_short_circuit [witnessHolding]
      "hph_bjnbecip".data "E02XA".data ⟨true, AlmaCreateResult.createError⟩
      (by decide)).1
  rw [heq]
  exact ⟨rfl, rfl⟩

/-! ## Claim C9 — unrecognized location in item creation -/

/-- C9 counterexample: for a holding at the unrecognized location
"FOO", `creer_item_pour_une_holding` builds nothing, creates nothing
and logs no error (the no-op part of the claim holds), but the
orchestrator then records the location's item outcome with status
ERROR in the audit row — so the outcome *is* recorded as an error,
contrary to the claim. -/
theorem claim_C9_counterexample :
    (creer_item_pour_une_holding unknownLocHolding ⟨true, some "it1".data⟩).itemBuilt = false ∧
    (creer_item_pour_une_holding unknownLocHolding ⟨true, some "it1".data⟩).createCalls = 0 ∧
    (creer_item_pour_une_holding unknownLocHolding ⟨true, some "it1".data⟩).errorLogged = false ∧
    (recordLocationOutcome "FOO".data (some unknownLocHolding)
        ⟨true, some "it1".data⟩).item_status = some "ERROR".data := by
  decide

/-- C9 (amended): for every holding whose location is neither E02SP
nor E02XA, the item routine is a no-op — no item element built, no
creation call, only an info-level log — but the orchestrator records
that location's item outcome as status ERROR (with a generic error
message) in the audit row; the no-op is not distinguished from a
failure in the report. -/
theorem claim_C9_item_noop_reporting (h : AlmaHolding) (env : ItemCreationEnv) (loc : Str)
    (hloc : h.location = some loc) (h1 : loc ≠ "E02SP".data) (h2 : loc ≠ "E02XA".data) :
    creer_item_pour_une_holding h env = ⟨none, false, 0, false⟩ ∧
    (recordLocationOutcome loc (some h) env).item_status = some "ERROR".data ∧
    (recordLocationOutcome loc (some h) env).item_error
      = some "Item creation failed (see logs)".data := by
  have ht : creer_item_pour_une_holding h env = ⟨none, false, 0, false⟩ := by
    unfold creer_item_pour_une_holding
    rw [hloc]
    simp [h1, h2]
  refine ⟨ht, ?_, ?_⟩ <;> simp [recordLocationOutcome, ht]

/-- C9 witness: the amended statement at the concrete "FOO" holding. -/
theorem claim_C9_witness :
    creer_item_pour_une_holding unknownLocHolding ⟨true, some "it1".data⟩
        = ⟨none, false, 0, false⟩ ∧
    (recordLocationOutcome "FOO".data (some unknownLocHolding)
        ⟨true, some "it1".data⟩).item_status = some "ERROR".data ∧
    (recordLocationOutcome "FOO".data (some unknownLocHolding)
        ⟨true, some "it1".data⟩).item_error
      = some "Item creation failed (see logs)".data :=
  claim_C9_item_noop_reporting unknownLocHolding ⟨true, some "it1".data⟩ "FOO".data
    (by decide) (by decide) (by decide)

/-! ## Claim C3 — mapper totality and static output -/

lemma recordGetFirst_eq_none_of_absent {src : MarcRecord}
    (h : ∀ f ∈ src.fields, f.tag ∉ consultedTags) {t : String}
    (ht : t ∈ consultedTags) : recordGetFirst src t = none := by
  unfold recordGetFirst
  rw [List.find?_eq_none]
  intro f hf
  simp only [decide_eq_true_eq]
  intro heq
  exact h f hf (heq ▸ ht)

lemma get_fields_eq_nil_of_absent {src : MarcRecord}
    (h : ∀ f ∈ src.fields, f.tag ∉ consultedTags) {t : String}
    (ht : t ∈ consultedTags) : get_fields src t = [] := by
  unfold get_fields
  rw [List.filter_eq_nil_iff]
  intro f hf
  simp only [decide_eq_true_eq]
  intro heq
  exact h f hf (heq ▸ ht)

/-- C3 counterexample: on the field-free source record the mapper's
output contains a main-entry field carrying only the fixed relator
code — a field that is neither in the claim's static enumeration nor
backed by any source data, so the output does not consist of the
claimed static fields plus data-backed optional fields only. -/
theorem claim_C3_counterexample :
    (MarcField.data "100" '1' ' ' [⟨'4', "aut".data⟩])
        ∈ (build_final_record ⟨[], []⟩).fields ∧
    (MarcField.data "100" '1' ' ' [⟨'4', "aut".data⟩]) ∉ claimStaticFields := by
  decide

/-- C3 (amended): the mapper is total, and on every source record
lacking all consulted fields (contributor, title, publication, date,
pagination, type, degree, report-number and keyword fields) it
produces exactly the static record — the claim's static fields plus
the always-emitted main-entry and secondary-entry fields carrying only
their fixed relator codes. -/
theorem claim_C3_mapper_static_output (src : MarcRecord)
    (h : ∀ f ∈ src.fields, f.tag ∉ consultedTags) :
    build_final_record src = staticMappedRecord := by
  have e001 : recordGetFirst src "001" = none :=
    recordGetFirst_eq_none_of_absent h (by decide)
  have e245 : recordGetFirst src "245" = none :=
    recordGetFirst_eq_none_of_absent h (by decide)
  have e260 : recordGetFirst src "260" = none :=
    recordGetFirst_eq_none_of_absent h (by decide)
  have e300 : recordGetFirst src "300" = none :=
    recordGetFirst_eq_none_of_absent h (by decide)
  have e336 : recordGetFirst src "336" = none :=
    recordGetFirst_eq_none_of_absent h (by decide)
  have e920 : recordGetFirst src "920" = none :=
    recordGetFirst_eq_none_of_absent h (by decide)
  have e088 : recordGetFirst src "088" = none :=
    recordGetFirst_eq_none_of_absent h (by decide)
  have g700 : get_fields src "700" = [] :=
    get_fields_eq_nil_of_absent h (by decide)
  have g720 : get_fields src "720" = [] :=
    get_fields_eq_nil_of_absent h (by decide)
  have g653 : get_fields src "653" = [] :=
    get_fields_eq_nil_of_absent h (by decide)
  simp [build_final_record, recordControlData, fget, fget_all, e001, e245, e260,
    e300, e336, e920, e088, g700, g720, g653, truthy, invert_name_comma,
    ensure_pages_suffix, expand_epfl, orEmpty, dedupAux, staticMappedRecord]

/-- C3 witness: the static-output statement at the concrete empty
source record. -/
theorem claim_C3_witness :
    build_final_record ⟨[], []⟩ = staticMappedRecord :=
  claim_C3_mapper_static_output ⟨[], []⟩ (by decide)

/-! ## Claim C8 — abstract note construction -/

lemma keywords_filter_map (l : List Str) :
    (l.filter (fun k => !k.isEmpty && !(pyStrip k).isEmpty)).map pyStrip
      = (l.map pyStrip).filter (fun k => !k.isEmpty) := by
  rw [List.filter_map]
  congr 1
  apply List.filter_congr
  intro x _
  cases x with
  | nil => rfl
  | cons c cs => simp

lemma filter520_concat (c1 c2 c3 c4 : Bool) (d1 d8 : Str)
    (s040 s100 s245 s264 s300 s336 s337 s338 s502 s520 s655a s655b s655c :
      List MarcSubfield)
    (f700 : MarcField) (h700 : f700.tag ≠ "520") :
    List.filter (fun f => f.tag = "520")
      ((if c1 then [MarcField.control "001" d1] else [])
        ++ [MarcField.control "008" d8, MarcField.data "040" ' ' ' ' s040,
            MarcField.data "100" '1' ' ' s100]
        ++ (if c2 then [] else [MarcField.data "245" '1' '0' s245])
        ++ (if c3 then [] else [MarcField.data "264" ' ' '1' s264])
        ++ [MarcField.data "300" ' ' ' ' s300, MarcField.data "336" ' ' ' ' s336,
            MarcField.data "337" ' ' ' ' s337, MarcField.data "338" ' ' ' ' s338]
        ++ (if c4 then [] else [MarcField.data "502" ' ' ' ' s502])
        ++ [MarcField.data "520" ' ' ' ' s520, MarcField.data "655" ' ' '7' s655a,
            MarcField.data "655" ' ' '7' s655b, MarcField.data "655" ' ' '7' s655c,
            f700])
      = [MarcField.data "520" ' ' ' ' s520] := by
  cases c1 <;> cases c2 <;> cases c3 <;> cases c4 <;>
    simp [MarcField.tag] <;> exact h700

/-- C8: for every source record the mapped record has exactly one
abstract field, whose subfields are precisely those prescribed by the
spec's pipeline (trim, drop empties, first-seen dedup, join with "; ",
"||" replacement, label iff nonempty, institutional-code subfield
always present). -/
theorem claim_C8_abstract_note (src : MarcRecord) :
    (build_final_record src).fields.filter (fun f => f.tag = "520")
      = [MarcField.data "520" ' ' ' ' (specAbstractSubfields src)] := by
  simp only [build_final_record, specAbstractSubfields]
  rw [keywords_filter_map]
  refine filter520_concat _ _ _ _ _ _ _ _ _ _ _ _ _ _ _ _ _ _ _ _ ?_
  cases hA : (get_fields src "720").find? (fun f => fieldInd2Is f '2' && fieldHas f 'a') with
  | some f1 => simp [MarcField.tag]
  | none =>
    cases hB : (get_fields src "720").find? (fun f => fieldHas f 'a') with
    | none => simp [MarcField.tag]
    | some f1 => simp [MarcField.tag]
